import Mathlib

/-!
EcoTrack: verification of the telemetry dashboard computations.

Shallow embedding of the analytics functions of `dashboard.py` and of the
geo-query boundary of `aggregation_queries.py`.

Modelling conventions:
* A pandas `DataFrame` of telemetry rows is a `List Reading`; float values are
  embedded as exact rationals `ℚ`.
* pandas `Series.mean` returns NaN on an empty series; we model a possibly-NaN
  float as `Option ℚ`, with `none` standing for NaN.
* `groupby` over a key is: deduplicated key list (first-occurrence order, then
  sorted where pandas sorts group keys), with each group obtained by filtering.
* `arr.std(ddof=0)` is the square root of the population variance; comparisons
  against it are carried out in `ℚ` via the equivalent squared inequality, and
  `isAnomalous_iff_zscoreExceeds` proves that rendering equivalent to the
  real-valued z-score comparison of the source.
-/

namespace EcoTrack

/-- A telemetry document as consumed by `dashboard.py`: `timestamp` (ISO-8601
string), `asset_id`, `value_type`, numeric `value`. -/
structure Reading where
  asset_id : String
  timestamp : String
  value_type : String
  value : ℚ
deriving DecidableEq, Repr

/-- The value-type tag selected by every rollup (`dashboard.py`). -/
def electricityTag : String := "electricity_kWh"

/-- The filter `df[df["value_type"] == "electricity_kWh"]` applied by every
rollup in `dashboard.py`. -/
def electricity (df : List Reading) : List Reading :=
  df.filter (fun r => decide (r.value_type = electricityTag))

/-- `calc_total_kwh` (dashboard.py lines 89-92): `0.0` on an empty frame, else
the sum of the electricity values. -/
def calc_total_kwh (df : List Reading) : ℚ :=
  if df = [] then 0
  else ((electricity df).map (fun r => r.value)).sum

/-- `calc_emissions_kg` (dashboard.py lines 94-95): `total_kwh * factor`.  The
source default for `factor` is `0.82 = 41/50`; Lean takes it explicitly. -/
def calc_emissions_kg (total_kwh factor : ℚ) : ℚ :=
  total_kwh * factor

/-- pandas `Series.mean`: NaN (`none`) on an empty series, else sum/length. -/
def seriesMean (l : List ℚ) : Option ℚ :=
  if l = [] then none else some (l.sum / l.length)

/-- The `avg_kwh` computation (dashboard.py lines 179-181): initialised to
`0.0`, overwritten by the mean of the electricity values whenever the frame is
non-empty — even when the electricity slice itself is empty (then the mean is
NaN). -/
def avg_kwh (df : List Reading) : Option ℚ :=
  if df = [] then some 0
  else seriesMean ((electricity df).map (fun r => r.value))

/-- `d["ts"].dt.date` on an ISO-8601 timestamp string: the 10-character date
prefix (the format makes string truncation and date truncation agree, and the
query layer's `$substr` pipeline does exactly this). -/
def dateOf (r : Reading) : String := r.timestamp.take 10

/-- `daily_aggregates` (dashboard.py lines 97-104): group the electricity rows
by date, sum each group's values, order by date. -/
def daily_aggregates (df : List Reading) : List (String × ℚ) :=
  if df = [] then []
  else
    let d := electricity df
    (((d.map dateOf).dedup).map
        (fun day =>
          (day, ((d.filter (fun r => decide (dateOf r = day))).map (fun r => r.value)).sum))).mergeSort
      (fun a b => decide (a.1 ≤ b.1))

/-- `asset_aggregates` (dashboard.py lines 106-111): group the electricity rows
by asset, sum each group's values, order descending by the summed value. -/
def asset_aggregates (df : List Reading) : List (String × ℚ) :=
  if df = [] then []
  else
    let d := electricity df
    (((d.map (fun r => r.asset_id)).dedup).map
        (fun aid =>
          (aid,
            ((d.filter (fun r => decide (r.asset_id = aid))).map (fun r => r.value)).sum))).mergeSort
      (fun a b => decide (b.2 ≤ a.2))

/-- `series.rolling(window, min_periods=1).mean()`: entry `i` is the mean of
the window of up to `window` values ending at position `i`. -/
def rollingMean (window : Nat) (l : List ℚ) : List ℚ :=
  (List.range l.length).map
    (fun i =>
      ((l.take (i + 1)).drop (i + 1 - window)).sum /
        (((l.take (i + 1)).drop (i + 1 - window)).length : ℚ))

/-- `simple_moving_average_forecast` (dashboard.py lines 113-121): empty series
for empty input, else the last trailing moving average repeated `days_out`
times.  (The source indexes the repeats by future dates; the claims concern
only the values, so the index is dropped.) -/
def simple_moving_average_forecast (series : List ℚ) (days_out window : Nat) : List ℚ :=
  if series = [] then []
  else List.replicate days_out ((rollingMean window series).getLastD 0)

/-- `arr.mean()` over the values of one asset's group. -/
def qmean (l : List ℚ) : ℚ := l.sum / l.length

/-- Population variance, the square of `arr.std(ddof=0)`. -/
def popVar (l : List ℚ) : ℚ :=
  (l.map (fun v => (v - qmean l) ^ 2)).sum / l.length

/-- The per-reading flag of the anomaly scan (dashboard.py lines 227-230):
`(value - mean) / std > 2.5` where `std = arr.std(ddof=0)` when that is
positive and `1.0` otherwise.  `std > 0` iff `popVar > 0`, and for positive
variance the comparison is squared to stay in `ℚ`:
`(v - m)/√var > 5/2 ↔ 0 < v - m ∧ (5/2)^2 * var < (v - m)^2`
(proved as `isAnomalous_iff_zscoreExceeds`). -/
def isAnomalous (g : List ℚ) (v : ℚ) : Bool :=
  if popVar g = 0 then decide (5 / 2 < v - qmean g)
  else decide (0 < v - qmean g ∧ (5 / 2) ^ 2 * popVar g < (v - qmean g) ^ 2)

/-- One row of the anomaly table (dashboard.py lines 232-237).  The source also
stores the z-score itself; the score is `(value - mean)/√var`, irrational in
general, and none of the claims concern the stored score, so the record keeps
the identifying fields only. -/
structure AnomalyRecord where
  asset_id : String
  timestamp : String
  value : ℚ
deriving DecidableEq, Repr

/-- One group of `z_df.groupby("asset_id")`: the rows of one asset. -/
def groupOf (z : List Reading) (aid : String) : List Reading :=
  z.filter (fun r => decide (r.asset_id = aid))

/-- The anomaly scan (dashboard.py lines 216-237): filter to electricity rows
(`z`), group by asset (pandas iterates groups in sorted key order; `g` is the
group `groupOf (electricity df) aid`), skip groups with fewer than two rows,
and collect the rows of each group passing the z-score flag. -/
def anomaly_records (df : List Reading) : List AnomalyRecord :=
  ((((electricity df).map (fun r => r.asset_id)).dedup).mergeSort
      (fun a b => decide (a ≤ b))).flatMap
    (fun aid =>
      if (groupOf (electricity df) aid).length < 2 then []
      else
        ((groupOf (electricity df) aid).filter
            (fun r =>
              isAnomalous ((groupOf (electricity df) aid).map (fun x => x.value)) r.value)).map
          (fun r => ⟨r.asset_id, r.timestamp, r.value⟩))

/-- The z-score condition exactly as the source computes it, over the reals:
`(value - mean) / std > 2.5` with `std` the square root of the population
variance when positive, else the substituted `1.0`. -/
def zscoreExceeds (g : List ℚ) (v : ℚ) : Prop :=
  ((v : ℝ) - (qmean g : ℝ)) /
      (if 0 < Real.sqrt ((popVar g : ℚ) : ℝ) then Real.sqrt ((popVar g : ℚ) : ℝ) else 1) >
    5 / 2

/-- Outcome of the forecast panel (dashboard.py lines 254-279): either a chart
of actual and forecast values, or the error box from the Prophet branch. -/
inductive ForecastPanel where
  | chart (actual forecast : List ℚ)
  | errorBox (msg : String)
deriving DecidableEq, Repr

/-- The sidebar toggle (dashboard.py lines 164-168): `use_prophet` starts
`False` and only the checkbox shown when Prophet imported can set it. -/
def use_prophet (prophetAvailable checkboxChosen : Bool) : Bool :=
  if prophetAvailable then checkboxChosen else false

/-- The forecast dispatch (dashboard.py lines 254-279).  `prophetOutcome`
models running `prophet_forecast` inside the `try`: `.ok` its result, `.error`
the caught exception text (`prophet_forecast` raises when Prophet is missing,
lines 125-126, and the import failure itself is already caught at lines
13-17 into the `prophetAvailable` flag). -/
def forecastPanel (prophetAvailable useProphetFlag : Bool)
    (prophetOutcome : Except String (List ℚ)) (series : List ℚ) (days_out : Nat) :
    ForecastPanel :=
  if prophetAvailable && useProphetFlag then
    match prophetOutcome with
    | .ok f => .chart series f
    | .error e => .errorBox ("Prophet error: " ++ e)
  else .chart series (simple_moving_average_forecast series days_out 3)

/-- Outcome of the geoNear section of `aggregation_queries.py`: the provider
list, or the printed lines of the `except` branch. -/
inductive GeoOutcome where
  | results (provs : List String)
  | message (lines : List String)
deriving DecidableEq, Repr

/-- Modelled from the spec: the store's `$geoNear` aggregation against
`service_providers` is external code; per the spec it fails (raises) when the
2dsphere index on the provider location field is absent, and returns the
provider list otherwise. -/
def geoNearAggregate (hasSpatialIndex : Bool) (providers : List String)
    (errText : String) : Except String (List String) :=
  if hasSpatialIndex then .ok providers else .error errText

/-- The query boundary (aggregation_queries.py lines 138-143): run the geoNear
pipeline inside `try`, catching any failure and printing the message naming the
required index instead of propagating. -/
def runGeoSection (hasSpatialIndex : Bool) (providers : List String)
    (errText : String) : GeoOutcome :=
  match geoNearAggregate hasSpatialIndex providers errText with
  | .ok rs => .results rs
  | .error e => .message ["GeoNear requires 2dsphere index!", "Error: " ++ e]

/-- The spec's worked example for the anomaly flag: one asset with readings
`[10, 10, 10, 10, 50]` (mean 18, population variance 256, so z-score of the
reading 50 is exactly 2). -/
def anomalyFlatExample : List Reading :=
  [⟨"A1", "2025-01-01T00:00:00", electricityTag, 10⟩,
    ⟨"A1", "2025-01-02T00:00:00", electricityTag, 10⟩,
    ⟨"A1", "2025-01-03T00:00:00", electricityTag, 10⟩,
    ⟨"A1", "2025-01-04T00:00:00", electricityTag, 10⟩,
    ⟨"A1", "2025-01-05T00:00:00", electricityTag, 50⟩]

/-- One asset with seven readings of 0 and one of 1: mean 1/8, population
variance 7/64, and the reading 1 has z-score √7 > 2.5, so it is flagged. -/
def anomalySpikeExample : List Reading :=
  [⟨"A1", "2025-02-01T00:00:00", electricityTag, 0⟩,
    ⟨"A1", "2025-02-02T00:00:00", electricityTag, 0⟩,
    ⟨"A1", "2025-02-03T00:00:00", electricityTag, 0⟩,
    ⟨"A1", "2025-02-04T00:00:00", electricityTag, 0⟩,
    ⟨"A1", "2025-02-05T00:00:00", electricityTag, 0⟩,
    ⟨"A1", "2025-02-06T00:00:00", electricityTag, 0⟩,
    ⟨"A1", "2025-02-07T00:00:00", electricityTag, 0⟩,
    ⟨"A1", "2025-02-08T00:00:00", electricityTag, 1⟩]

/-!
Theorems.
-/

/-- Splitting a mapped sum along a Boolean filter. -/
theorem sum_map_filter_split {α : Type} (p : α → Bool) (f : α → ℚ) (l : List α) :
    ((l.filter p).map f).sum + ((l.filter (fun a => !p a)).map f).sum = (l.map f).sum := by
  induction l with
  | nil => simp
  | cons a t ih =>
    cases hpa : p a <;> simp only [List.filter_cons, hpa, Bool.not_true, Bool.not_false,
      if_pos, if_neg, List.map_cons, List.sum_cons, Bool.false_eq_true, ite_false,
      Bool.true_eq_false, ite_true] <;> linarith [ih]

/-- Summing fiberwise over a duplicate-free key list that covers the list
equals summing over the whole list. -/
theorem sum_fiberwise_eq_sum {α κ : Type} [DecidableEq κ] (key : α → κ) (f : α → ℚ) :
    ∀ K : List κ, K.Nodup → ∀ l : List α, (∀ a ∈ l, key a ∈ K) →
      (K.map (fun k => ((l.filter (fun a => decide (key a = k))).map f).sum)).sum =
        (l.map f).sum := by
  intro K
  induction K with
  | nil =>
    intro _ l hl
    cases l with
    | nil => simp
    | cons a t => exact absurd (hl a (List.mem_cons_self a t)) (List.not_mem_nil _)
  | cons k K ih =>
    intro hnd l hl
    obtain ⟨hkK, hndK⟩ := List.nodup_cons.mp hnd
    rw [List.map_cons, List.sum_cons]
    have hrest :
        K.map (fun k2 => ((l.filter (fun a => decide (key a = k2))).map f).sum) =
          K.map (fun k2 =>
            (((l.filter (fun a => !decide (key a = k))).filter
                (fun a => decide (key a = k2))).map f).sum) := by
      apply List.map_congr_left
      intro k2 hk2
      rw [List.filter_filter]
      congr 1
      refine congrArg (List.map f) ?_
      apply List.filter_congr
      intro a _
      by_cases h : key a = k2
      · have hne : ¬ k2 = k := fun hkk => hkK (hkk ▸ hk2)
        simp [h, hne]
      · simp [h]
    rw [hrest, ih hndK (l.filter (fun a => !decide (key a = k)))
      (by
        intro a ha
        obtain ⟨hal, hna⟩ := List.mem_filter.mp ha
        have hmem : key a ∈ k :: K := hl a hal
        rcases List.mem_cons.mp hmem with h | h
        · exact absurd hna (by simp [h])
        · exact h)]
    exact sum_map_filter_split (fun a => decide (key a = k)) f l

/-- C3: for every input set of readings, `calc_total_kwh` equals the sum of
the values of exactly the readings tagged `electricity_kWh`, and it is `0` on
an empty input or one with no such reading. -/
theorem calc_total_kwh_correct :
    (∀ df : List Reading,
        calc_total_kwh df = ((electricity df).map (fun r => r.value)).sum) ∧
      calc_total_kwh [] = 0 ∧
        ∀ df : List Reading, electricity df = [] → calc_total_kwh df = 0 := by
  have hmain : ∀ df : List Reading,
      calc_total_kwh df = ((electricity df).map (fun r => r.value)).sum := by
    intro df
    by_cases hdf : df = []
    · subst hdf; simp [calc_total_kwh, electricity]
    · rw [calc_total_kwh, if_neg hdf]
  refine ⟨hmain, by simp [calc_total_kwh], fun df h => ?_⟩
  rw [hmain df, h]
  simp

/-- Witness for C3 at a concrete input with no electricity reading. -/
theorem calc_total_kwh_correct_witness :
    electricity [Reading.mk "A1" "2025-01-01T00:00:00" "water_m3" 3] = [] ∧
      calc_total_kwh [Reading.mk "A1" "2025-01-01T00:00:00" "water_m3" 3] = 0 := by
  have h : electricity [Reading.mk "A1" "2025-01-01T00:00:00" "water_m3" 3] = [] := by
    simp [electricity, electricityTag]
  exact ⟨h, calc_total_kwh_correct.2.2 _ h⟩

/-- C5: the emission computation is the pure scalar multiply by the factor;
with the source's default factor `0.82 = 41/50` a total of `100` yields `82`. -/
theorem calc_emissions_kg_correct :
    (∀ total_kwh factor : ℚ, calc_emissions_kg total_kwh factor = total_kwh * factor) ∧
      (∀ total_kwh : ℚ, calc_emissions_kg total_kwh (41 / 50) = total_kwh * (41 / 50)) ∧
        calc_emissions_kg 100 (41 / 50) = 82 := by
  refine ⟨fun _ _ => rfl, fun _ => rfl, ?_⟩
  norm_num [calc_emissions_kg]

/-- C8: when Prophet is absent the sidebar flag stays off and the forecast
panel always renders the moving-average baseline chart, never an error box. -/
theorem prophet_absent_falls_back :
    ∀ (checkboxChosen : Bool) (prophetOutcome : Except String (List ℚ))
      (series : List ℚ) (days_out : Nat),
      forecastPanel false (use_prophet false checkboxChosen) prophetOutcome series days_out =
          ForecastPanel.chart series (simple_moving_average_forecast series days_out 3) ∧
        ∀ msg,
          forecastPanel false (use_prophet false checkboxChosen) prophetOutcome series
              days_out ≠ ForecastPanel.errorBox msg := by
  intro cb po s d
  refine ⟨rfl, fun msg h => ?_⟩
  simp [forecastPanel, use_prophet] at h

/-- Witness for C8 at a concrete session: checkbox ticked, Prophet run would
even fail — the panel still renders the moving-average chart. -/
theorem prophet_absent_falls_back_witness :
    forecastPanel false (use_prophet false true) (Except.error "boom") [1, 2] 7 =
        ForecastPanel.chart [1, 2] (simple_moving_average_forecast [1, 2] 7 3) ∧
      forecastPanel false (use_prophet false true) (Except.error "boom") [1, 2] 7 ≠
        ForecastPanel.errorBox "boom" :=
  ⟨(prophet_absent_falls_back true (Except.error "boom") [1, 2] 7).1,
    (prophet_absent_falls_back true (Except.error "boom") [1, 2] 7).2 "boom"⟩

/-- C9: with the spatial index absent the geoNear query fails, the failure is
caught at the query boundary and turned into the message naming the required
2dsphere index (the run continues and returns a value); with the index present
the provider results come back. -/
theorem geo_index_missing_reported :
    ∀ (providers : List String) (errText : String),
      runGeoSection false providers errText =
          GeoOutcome.message ["GeoNear requires 2dsphere index!", "Error: " ++ errText] ∧
        runGeoSection true providers errText = GeoOutcome.results providers := by
  intro p e
  exact ⟨rfl, rfl⟩

/-- C4: the per-day rollup values of `daily_aggregates` sum to the overall
total `calc_total_kwh` on the same input. -/
theorem daily_sum_eq_total :
    ∀ df : List Reading,
      ((daily_aggregates df).map (fun p => p.2)).sum = calc_total_kwh df := by
  intro df
  by_cases hdf : df = []
  · subst hdf; simp [daily_aggregates, calc_total_kwh]
  · rw [daily_aggregates, if_neg hdf, calc_total_kwh, if_neg hdf]
    have hperm :=
      (List.mergeSort_perm
          ((((electricity df).map dateOf).dedup).map
            (fun day =>
              (day,
                (((electricity df).filter (fun r => decide (dateOf r = day))).map
                  (fun r => r.value)).sum)))
          (fun a b => decide (a.1 ≤ b.1))).map (fun p : String × ℚ => p.2)
    rw [hperm.sum_eq, List.map_map]
    exact sum_fiberwise_eq_sum dateOf (fun r => r.value) _
      (List.nodup_dedup _) _
      (fun a ha => List.mem_dedup.mpr (List.mem_map_of_mem dateOf ha))

/-- C2 as stated is false: a non-empty frame with no electricity reading has
matching count zero, yet the reported mean is NaN (`none`), not zero. -/
theorem avg_kwh_zero_count_counterexample :
    (electricity [Reading.mk "A1" "2025-01-01T00:00:00" "water_m3" 3]).length = 0 ∧
      avg_kwh [Reading.mk "A1" "2025-01-01T00:00:00" "water_m3" 3] ≠ some 0 := by
  constructor
  · simp [electricity, electricityTag]
  · simp [avg_kwh, electricity, electricityTag, seriesMean]

/-- C2 amended: the mean equals total ÷ count whenever some reading matches;
it is reported as zero when the whole input is empty; but on a non-empty input
with zero matching readings it is NaN (`none`), not zero. -/
theorem avg_kwh_correct :
    ∀ df : List Reading,
      (df = [] → avg_kwh df = some 0) ∧
        (electricity df ≠ [] →
          avg_kwh df = some (calc_total_kwh df / ((electricity df).length : ℚ))) ∧
          (df ≠ [] → electricity df = [] → avg_kwh df = none) := by
  intro df
  refine ⟨fun h => by rw [avg_kwh, if_pos h], fun h => ?_, fun h1 h2 => ?_⟩
  · have hdf : df ≠ [] := by
      intro hnil
      exact h (by simp [hnil, electricity])
    rw [avg_kwh, if_neg hdf, seriesMean, if_neg (by simpa using h),
      calc_total_kwh, if_neg hdf]
    simp
  · rw [avg_kwh, if_neg h1, h2, seriesMean]
    simp

/-- Witness for C2's amended claim at a two-reading input. -/
theorem avg_kwh_correct_witness :
    electricity
        [Reading.mk "A1" "2025-01-01T00:00:00" electricityTag 10,
          Reading.mk "A1" "2025-01-02T00:00:00" electricityTag 20] ≠ [] ∧
      avg_kwh
          [Reading.mk "A1" "2025-01-01T00:00:00" electricityTag 10,
            Reading.mk "A1" "2025-01-02T00:00:00" electricityTag 20] =
        some
          (calc_total_kwh
              [Reading.mk "A1" "2025-01-01T00:00:00" electricityTag 10,
                Reading.mk "A1" "2025-01-02T00:00:00" electricityTag 20] /
            ((electricity
                  [Reading.mk "A1" "2025-01-01T00:00:00" electricityTag 10,
                    Reading.mk "A1" "2025-01-02T00:00:00" electricityTag 20]).length : ℚ)) := by
  have h : electricity
      [Reading.mk "A1" "2025-01-01T00:00:00" electricityTag 10,
        Reading.mk "A1" "2025-01-02T00:00:00" electricityTag 20] ≠ [] := by
    simp [electricity, electricityTag]
  exact ⟨h, (avg_kwh_correct _).2.1 h⟩

/-- The last entry of the trailing moving average is the mean of the final
window of up to `window` values. -/
theorem rollingMean_getLastD (window : Nat) (l : List ℚ) (h : l ≠ []) :
    (rollingMean window l).getLastD 0 =
      (l.drop (l.length - window)).sum / ((l.drop (l.length - window)).length : ℚ) := by
  obtain ⟨n, hn⟩ : ∃ n, l.length = n + 1 := by
    cases l with
    | nil => exact absurd rfl h
    | cons a t => exact ⟨t.length, rfl⟩
  have htake : l.take (n + 1) = l := by rw [← hn]; exact List.take_length l
  rw [rollingMean, hn, List.range_succ, List.map_append, List.map_cons, List.map_nil,
    List.getLastD_concat, htake]

/-- C6: on a non-empty series the forecast is the final trailing moving
average (window 3, minimum periods 1) repeated flat for the whole horizon, and
for the series `[4, 6, 5]` every forecast point of any horizon equals 5. -/
theorem sma_forecast_flat :
    (∀ (series : List ℚ) (days_out : Nat), series ≠ [] →
        simple_moving_average_forecast series days_out 3 =
          List.replicate days_out
            ((series.drop (series.length - 3)).sum /
              ((series.drop (series.length - 3)).length : ℚ))) ∧
      ∀ (days_out : Nat) (x : ℚ),
        x ∈ simple_moving_average_forecast [4, 6, 5] days_out 3 → x = 5 := by
  have hmain : ∀ (series : List ℚ) (days_out : Nat), series ≠ [] →
      simple_moving_average_forecast series days_out 3 =
        List.replicate days_out
          ((series.drop (series.length - 3)).sum /
            ((series.drop (series.length - 3)).length : ℚ)) := by
    intro s d h
    rw [simple_moving_average_forecast, if_neg h, rollingMean_getLastD 3 s h]
  refine ⟨hmain, ?_⟩
  intro d x hx
  rw [hmain [4, 6, 5] d (by simp)] at hx
  rw [List.eq_of_mem_replicate hx]
  norm_num

/-- Witness for C6 at the series `[4, 6, 5]` with horizon 2: both hypotheses
(non-emptiness, and membership of a value in the forecast) are discharged at
concrete inputs. -/
theorem sma_forecast_flat_witness :
    (([4, 6, 5] : List ℚ) ≠ [] ∧
        simple_moving_average_forecast [4, 6, 5] 2 3 =
          List.replicate 2
            ((([4, 6, 5] : List ℚ).drop (([4, 6, 5] : List ℚ).length - 3)).sum /
              ((([4, 6, 5] : List ℚ).drop (([4, 6, 5] : List ℚ).length - 3)).length : ℚ))) ∧
      (5 : ℚ) ∈ simple_moving_average_forecast [4, 6, 5] 2 3 ∧ (5 : ℚ) = 5 := by
  have hne : ([4, 6, 5] : List ℚ) ≠ [] := by simp
  have hmem : (5 : ℚ) ∈ simple_moving_average_forecast [4, 6, 5] 2 3 := by
    rw [sma_forecast_flat.1 [4, 6, 5] 2 hne]
    norm_num
  exact ⟨⟨hne, sma_forecast_flat.1 [4, 6, 5] 2 hne⟩, hmem,
    sma_forecast_flat.2 2 5 hmem⟩

/-- C7: the per-asset rollup is ordered descending by summed value (ties in
either order satisfy the non-strict ordering), and its rows are exactly the
per-asset sums of the electricity readings. -/
theorem asset_aggregates_sorted_desc :
    ∀ df : List Reading,
      List.Pairwise (fun a b : String × ℚ => b.2 ≤ a.2) (asset_aggregates df) ∧
        ∀ p : String × ℚ,
          p ∈ asset_aggregates df ↔
            ∃ r ∈ electricity df,
              p = (r.asset_id,
                (((electricity df).filter (fun x => decide (x.asset_id = r.asset_id))).map
                  (fun x => x.value)).sum) := by
  intro df
  by_cases hdf : df = []
  · subst hdf
    refine ⟨by simp [asset_aggregates], fun p => ?_⟩
    simp [asset_aggregates, electricity]
  · constructor
    · rw [asset_aggregates, if_neg hdf]
      have hs :=
        @List.sorted_mergeSort (String × ℚ) (fun a b => decide (b.2 ≤ a.2))
          (fun a b c hab hbc => by
            simp only [decide_eq_true_eq] at *
            exact le_trans hbc hab)
          (fun a b => by
            simp only [Bool.or_eq_true, decide_eq_true_eq]
            exact le_total b.2 a.2)
          ((((electricity df).map (fun r => r.asset_id)).dedup).map
            (fun aid =>
              (aid,
                (((electricity df).filter (fun r => decide (r.asset_id = aid))).map
                  (fun r => r.value)).sum)))
      exact hs.imp (fun h => by simpa using h)
    · intro p
      rw [asset_aggregates, if_neg hdf, List.mem_mergeSort, List.mem_map]
      constructor
      · rintro ⟨aid, haid, rfl⟩
        obtain ⟨r, hr, rfl⟩ := List.mem_map.mp (List.mem_dedup.mp haid)
        exact ⟨r, hr, rfl⟩
      · rintro ⟨r, hr, rfl⟩
        exact ⟨r.asset_id, List.mem_dedup.mpr (List.mem_map_of_mem _ hr), rfl⟩

/-- Population variance is nonnegative. -/
theorem popVar_nonneg (l : List ℚ) : 0 ≤ popVar l := by
  rw [popVar]
  apply div_nonneg
  · apply List.sum_nonneg
    intro x hx
    obtain ⟨v, -, rfl⟩ := List.mem_map.mp hx
    positivity
  · positivity

/-- The `ℚ`-level anomaly flag agrees with the real-valued z-score comparison
performed by the source (`(v - mean) / std > 2.5` with `std = √popVar` when
positive, else the substituted `1.0`). -/
theorem isAnomalous_iff_zscoreExceeds (g : List ℚ) (v : ℚ) :
    isAnomalous g v = true ↔ zscoreExceeds g v := by
  have hvar0 : (0 : ℝ) ≤ ((popVar g : ℚ) : ℝ) := by exact_mod_cast popVar_nonneg g
  rw [isAnomalous, zscoreExceeds]
  by_cases h : popVar g = 0
  · rw [if_pos h, h]
    push_cast
    rw [Real.sqrt_zero]
    simp only [lt_self_iff_false, if_false]
    rw [div_one, decide_eq_true_eq, gt_iff_lt]
    constructor
    · intro hlt
      rify at hlt
      exact hlt
    · intro hlt
      rify
      exact hlt
  · have hpos : (0 : ℝ) < ((popVar g : ℚ) : ℝ) := by
      have h1 : (0 : ℚ) < popVar g := lt_of_le_of_ne (popVar_nonneg g) (Ne.symm h)
      exact_mod_cast h1
    have hs : 0 < Real.sqrt ((popVar g : ℚ) : ℝ) := Real.sqrt_pos.mpr hpos
    have hsq : Real.sqrt ((popVar g : ℚ) : ℝ) ^ 2 = ((popVar g : ℚ) : ℝ) :=
      Real.sq_sqrt hvar0
    rw [if_neg h, if_pos hs, decide_eq_true_eq, gt_iff_lt, lt_div_iff₀ hs]
    constructor
    · rintro ⟨h1, h2⟩
      have h1R : (0 : ℝ) < (v : ℝ) - ((qmean g : ℚ) : ℝ) := by exact_mod_cast h1
      have h2R :
          ((5 : ℝ) / 2) ^ 2 * ((popVar g : ℚ) : ℝ) <
            ((v : ℝ) - ((qmean g : ℚ) : ℝ)) ^ 2 := by
        rify at h2
        exact h2
      have hEq :
          ((5 : ℝ) / 2 * Real.sqrt ((popVar g : ℚ) : ℝ)) ^ 2 =
            ((5 : ℝ) / 2) ^ 2 * ((popVar g : ℚ) : ℝ) := by rw [mul_pow, hsq]
      refine lt_of_pow_lt_pow_left₀ 2 (le_of_lt h1R) ?_
      calc ((5 : ℝ) / 2 * Real.sqrt ((popVar g : ℚ) : ℝ)) ^ 2
          = ((5 : ℝ) / 2) ^ 2 * ((popVar g : ℚ) : ℝ) := hEq
        _ < ((v : ℝ) - ((qmean g : ℚ) : ℝ)) ^ 2 := h2R
    · intro hlt
      have h1R : (0 : ℝ) < (v : ℝ) - ((qmean g : ℚ) : ℝ) :=
        lt_of_le_of_lt (by positivity) hlt
      have hlt2 := pow_lt_pow_left₀ hlt (by positivity) (two_ne_zero)
      rw [mul_pow, hsq] at hlt2
      constructor
      · exact_mod_cast h1R
      · rify
        exact hlt2

/-- Membership characterisation of the anomaly table: exactly the electricity
readings of assets with at least two readings that pass the flag. -/
theorem mem_anomaly_records (df : List Reading) (rec : AnomalyRecord) :
    rec ∈ anomaly_records df ↔
      ∃ r ∈ electricity df,
        2 ≤ (groupOf (electricity df) r.asset_id).length ∧
          isAnomalous ((groupOf (electricity df) r.asset_id).map (fun x => x.value))
              r.value = true ∧
            rec = ⟨r.asset_id, r.timestamp, r.value⟩ := by
  rw [anomaly_records, List.mem_flatMap]
  constructor
  · rintro ⟨aid, haid, hrec⟩
    by_cases hlen : (groupOf (electricity df) aid).length < 2
    · rw [if_pos hlen] at hrec
      exact absurd hrec (List.not_mem_nil rec)
    · rw [if_neg hlen] at hrec
      obtain ⟨r, hrmem, hmk⟩ := List.mem_map.mp hrec
      obtain ⟨hg, hflag⟩ := List.mem_filter.mp hrmem
      have hg2 := hg
      rw [groupOf] at hg2
      obtain ⟨hz, haeq⟩ := List.mem_filter.mp hg2
      have haeq2 : r.asset_id = aid := of_decide_eq_true haeq
      subst haeq2
      exact ⟨r, hz, by omega, hflag, hmk.symm⟩
  · rintro ⟨r, hr, hlen, hflag, rfl⟩
    refine ⟨r.asset_id, ?_, ?_⟩
    · rw [List.mem_mergeSort]
      exact List.mem_dedup.mpr (List.mem_map_of_mem _ hr)
    · rw [if_neg (by omega)]
      apply List.mem_map_of_mem
      rw [List.mem_filter]
      refine ⟨?_, hflag⟩
      rw [groupOf, List.mem_filter]
      exact ⟨hr, by simp⟩

/-- C1: the anomaly table holds exactly the electricity readings of assets
with at least two readings whose z-score (value minus group mean over the
population standard deviation, with 1.0 substituted for a zero standard
deviation) exceeds 2.5 — assets with fewer than two readings are skipped; and
on the spec's example `[10, 10, 10, 10, 50]` (z-score of the 50 is 2)
nothing is flagged. -/
theorem anomaly_scan_correct :
    (∀ (df : List Reading) (rec : AnomalyRecord),
        rec ∈ anomaly_records df ↔
          ∃ r ∈ electricity df,
            2 ≤ (groupOf (electricity df) r.asset_id).length ∧
              zscoreExceeds ((groupOf (electricity df) r.asset_id).map (fun x => x.value))
                  r.value ∧
                rec = ⟨r.asset_id, r.timestamp, r.value⟩) ∧
      anomaly_records anomalyFlatExample = [] := by
  constructor
  · intro df rec
    rw [mem_anomaly_records]
    constructor
    · rintro ⟨r, hr, hlen, hflag, hrec⟩
      exact ⟨r, hr, hlen, (isAnomalous_iff_zscoreExceeds _ _).mp hflag, hrec⟩
    · rintro ⟨r, hr, hlen, hflag, hrec⟩
      exact ⟨r, hr, hlen, (isAnomalous_iff_zscoreExceeds _ _).mpr hflag, hrec⟩
  · rw [List.eq_nil_iff_forall_not_mem]
    intro rec hrec
    rw [mem_anomaly_records] at hrec
    obtain ⟨r, hr, -, hflag, -⟩ := hrec
    have helec : electricity anomalyFlatExample = anomalyFlatExample := by
      simp [electricity, electricityTag, anomalyFlatExample]
    have hgrp : groupOf anomalyFlatExample "A1" = anomalyFlatExample := by
      simp [groupOf, anomalyFlatExample]
    have hmapv :
        anomalyFlatExample.map (fun x => x.value) = [10, 10, 10, 10, 50] := by
      simp [anomalyFlatExample]
    have hq : qmean [10, 10, 10, 10, 50] = 18 := by norm_num [qmean]
    have hvar : popVar [10, 10, 10, 10, 50] = 256 := by
      norm_num [popVar, qmean]
    have hval : ∀ v : ℚ, v = 10 ∨ v = 50 →
        isAnomalous [10, 10, 10, 10, 50] v = false := by
      rintro v (rfl | rfl) <;>
        · rw [isAnomalous, if_neg (by rw [hvar]; norm_num), decide_eq_false_iff_not,
            hq, hvar]
          norm_num
    rw [helec] at hr hflag
    simp only [anomalyFlatExample, List.mem_cons, List.not_mem_nil, or_false] at hr
    rcases hr with rfl | rfl | rfl | rfl | rfl <;>
      · dsimp only at hflag
        rw [hgrp, hmapv] at hflag
        first
          | (rw [hval 10 (Or.inl rfl)] at hflag; exact Bool.false_ne_true hflag)
          | (rw [hval 50 (Or.inr rfl)] at hflag; exact Bool.false_ne_true hflag)

/-- C10: the scan is one-sided — a reading at or below its asset group's mean
is never flagged (the z-score is compared signed against 2.5). -/
theorem anomaly_scan_one_sided :
    ∀ (df : List Reading) (r : Reading),
      r ∈ electricity df →
        r.value ≤ qmean ((groupOf (electricity df) r.asset_id).map (fun x => x.value)) →
          (⟨r.asset_id, r.timestamp, r.value⟩ : AnomalyRecord) ∉ anomaly_records df := by
  intro df r hr hle hmem
  rw [mem_anomaly_records] at hmem
  obtain ⟨r2, hr2, hlen, hflag, heq⟩ := hmem
  have ha : r.asset_id = r2.asset_id := congrArg AnomalyRecord.asset_id heq
  have hv : r.value = r2.value := congrArg AnomalyRecord.value heq
  rw [← ha, ← hv] at hflag
  rw [isAnomalous] at hflag
  by_cases h0 :
      popVar ((groupOf (electricity df) r.asset_id).map (fun x => x.value)) = 0
  · rw [if_pos h0, decide_eq_true_eq] at hflag
    linarith
  · rw [if_neg h0, decide_eq_true_eq] at hflag
    linarith [hflag.1]

/-- Witness for C10 at the spike example: the first (zero) reading sits below
the group mean 1/8 and is not flagged. -/
theorem anomaly_scan_one_sided_witness :
    Reading.mk "A1" "2025-02-01T00:00:00" electricityTag 0 ∈
        electricity anomalySpikeExample ∧
      (Reading.mk "A1" "2025-02-01T00:00:00" electricityTag 0).value ≤
          qmean
            ((groupOf (electricity anomalySpikeExample)
                  (Reading.mk "A1" "2025-02-01T00:00:00" electricityTag 0).asset_id).map
              (fun x => x.value)) ∧
        (⟨"A1", "2025-02-01T00:00:00", (0 : ℚ)⟩ : AnomalyRecord) ∉
          anomaly_records anomalySpikeExample := by
  have helec : electricity anomalySpikeExample = anomalySpikeExample := by
    simp [electricity, electricityTag, anomalySpikeExample]
  have h1 : Reading.mk "A1" "2025-02-01T00:00:00" electricityTag 0 ∈
      electricity anomalySpikeExample := by
    rw [helec, anomalySpikeExample]
    exact List.mem_cons_self _ _
  have h2 : (Reading.mk "A1" "2025-02-01T00:00:00" electricityTag 0).value ≤
      qmean
        ((groupOf (electricity anomalySpikeExample)
              (Reading.mk "A1" "2025-02-01T00:00:00" electricityTag 0).asset_id).map
          (fun x => x.value)) := by
    rw [helec]
    dsimp only
    have hgrp : groupOf anomalySpikeExample "A1" = anomalySpikeExample := by
      simp [groupOf, anomalySpikeExample]
    rw [hgrp]
    have hmapv : anomalySpikeExample.map (fun x => x.value) =
        [0, 0, 0, 0, 0, 0, 0, 1] := by
      simp [anomalySpikeExample]
    rw [hmapv]
    norm_num [qmean]
  exact ⟨h1, h2, anomaly_scan_one_sided _ _ h1 h2⟩

end EcoTrack
